import Mathlib

/-!
Verification of the content-processing core of the CanvasAI tutor repository,
`src/scribe.py` (class `AIScribe`), against its natural-language specification.

The class holds three provider backends assigned once in `__init__`
(`self.recognizer`, `self.summary_model`, `self.translation_model`) and
exposes four methods: `transcribe_audio`, `summarize_text`, `translate_text`
and `process`.  The external backends (Google speech recognition, the two
Hugging Face pipelines) and the filesystem are modelled as pure stub
functions, exactly the substitution the specification's own test scenarios
prescribe ("verify via a provider stub").

Python observables are mapped as follows:
  * a Python return value `None`  ↦  `Option.none`;
  * a Python string `s`           ↦  `Option.some s`;
  * which external providers were invoked during a call is recorded as a
    `List Call` trace;
  * the object after the call is returned alongside, so that mutation (or
    here: its absence, since no method assigns any `self` attribute) is part
    of the model.
-/

/-- Outcome of `self.recognizer.recognize_google(audio_data)` on the audio
data recorded from a given file: either recognized text, or one of the two
exceptions the source catches (`sr.UnknownValueError`, `sr.RequestError`). -/
inductive RecogResult : Type
  | text (s : String)
  | unknownValue
  | requestError
  deriving DecidableEq, Repr

/-- The `AIScribe` object of `src/scribe.py`: its three attributes, assigned
in `__init__` and modelled as deterministic stub backends.  `recognizer`
maps an audio file path to the recognition outcome for the audio recorded
from that file; `summary_model` and `translation_model` map input text to
the backend's `summary_text` / `translation_text` field. -/
structure AIScribe : Type where
  recognizer : String → RecogResult
  summary_model : String → String
  translation_model : String → String

/-- A record of one invocation of an external provider backend. -/
inductive Call : Type
  | recognize (audioPath : String)
  | summarize (text : String)
  | translate (text : String)
  deriving DecidableEq, Repr

/-- Result of one method call: the Python return value (`none` = Python
`None`), the trace of provider invocations made during the call, and the
object as it stands after the call. -/
structure MethodOut : Type where
  ret : Option String
  calls : List Call
  self : AIScribe

/-- The filesystem: whether `sr.AudioFile(path)` opens without raising
`FileNotFoundError`. -/
abbrev Fs : Type := String → Bool

/-- `AIScribe.transcribe_audio` (src/scribe.py lines 18–41): opens the audio
file (a missing file raises `FileNotFoundError`, caught, returning `None`),
records it, and calls `recognize_google`; `sr.UnknownValueError` and
`sr.RequestError` are caught and return `None`; otherwise the recognized
text is returned. -/
def transcribe_audio (fs : Fs) (s : AIScribe) (audio_file_path : String) :
    MethodOut :=
  if fs audio_file_path then
    match s.recognizer audio_file_path with
    | RecogResult.text t => ⟨some t, [Call.recognize audio_file_path], s⟩
    | RecogResult.unknownValue => ⟨none, [Call.recognize audio_file_path], s⟩
    | RecogResult.requestError => ⟨none, [Call.recognize audio_file_path], s⟩
  else
    ⟨none, [], s⟩

/-- `AIScribe.summarize_text` (src/scribe.py lines 43–54): passes the text
directly to `self.summary_model` and returns the `summary_text` field of
the first element.  There is no validation of the input. -/
def summarize_text (s : AIScribe) (text : String) : MethodOut :=
  ⟨some (s.summary_model text), [Call.summarize text], s⟩

/-- `AIScribe.translate_text` (src/scribe.py lines 56–72): if the target
language is `"fr"`, passes the text to `self.translation_model` and returns
its `translation_text`; otherwise prints a message and returns the plain
string `"Target language not supported"` without touching the model. -/
def translate_text (s : AIScribe) (text : String) (target_language : String) :
    MethodOut :=
  if target_language = "fr" then
    ⟨some (s.translation_model text), [Call.translate text], s⟩
  else
    ⟨some "Target language not supported", [], s⟩

/-- `AIScribe.process` (src/scribe.py lines 74–93): string-dispatch on the
task name into the three methods above; any other task returns the plain
string `"Invalid task."`. -/
def process (fs : Fs) (s : AIScribe) (input_data : String) (task : String)
    (target_language : String) : MethodOut :=
  if task = "transcribe" then
    transcribe_audio fs s input_data
  else if task = "summarize" then
    summarize_text s input_data
  else if task = "translate" then
    translate_text s input_data target_language
  else
    ⟨some "Invalid task.", [], s⟩

/-- Calling `process` with only an input, using the Python default
parameters `task="transcribe"` and `target_language="fr"` from the `process`
signature. -/
def process_default (fs : Fs) (s : AIScribe) (input_data : String) :
    MethodOut :=
  process fs s input_data "transcribe" "fr"

/-- Concrete stub backends for scenario checks: the recognizer understands
`"clip.wav"`, reports `"noise.wav"` as unintelligible, and fails with a
request error on anything else; the summarizer and translator are the
spec's scenario stubs. -/
def stubScribe : AIScribe where
  recognizer := fun p =>
    if p = "clip.wav" then RecogResult.text "hello"
    else if p = "noise.wav" then RecogResult.unknownValue
    else RecogResult.requestError
  summary_model := fun _ => "stub summary"
  translation_model := fun _ => "Bonjour, comment ça va?"

/-- A concrete filesystem on which only `"clip.wav"`, `"noise.wav"` and
`"down.wav"` exist. -/
def stubFs : Fs := fun p => p == "clip.wav" || p == "noise.wav" || p == "down.wav"

/-- One method invocation on the object, as issued by a caller. -/
inductive MethodCall : Type
  | processC (input task lang : String)
  | transcribeC (path : String)
  | summarizeC (text : String)
  | translateC (text lang : String)
  deriving DecidableEq, Repr

/-- Execute one method call and keep the object it leaves behind. -/
def stepCall (fs : Fs) (s : AIScribe) : MethodCall → AIScribe
  | MethodCall.processC i t l => (process fs s i t l).self
  | MethodCall.transcribeC p => (transcribe_audio fs s p).self
  | MethodCall.summarizeC t => (summarize_text s t).self
  | MethodCall.translateC t l => (translate_text s t l).self

/-- Execute a sequence of method calls, threading the object through. -/
def runCalls (fs : Fs) (s : AIScribe) : List MethodCall → AIScribe
  | [] => s
  | c :: cs => runCalls fs (stepCall fs s c) cs

/-- Modelled from the spec: the error taxonomy of §7.  No such type exists
in src/ (the source signals failures with `None` and sentinel strings);
it is needed to state the Pipeline Runner contract of §4.4, which is also
absent from src/. -/
inductive ProcessingError : Type
  | invalidInput
  | unsupportedCapability
  | unsupportedLanguage
  | resourceUnavailable
  | unrecognized
  | inputTooShort
  | backendUnavailable
  deriving DecidableEq, Repr

/-- Modelled from the spec: the Pipeline Runner of §4.4, absent from src/.
`run(initialInput, steps)` feeds each step's output text as the next
step's input and fails fast on the first step error, returning the partial
sequence of successful results produced so far plus the terminal error
(`none` in the second component when every step succeeded).  A step is
abstracted as its dispatcher call `String → Except ProcessingError String`
(§4.3 dispatch applied to the step's task kind and parameters). -/
def runPipeline {α : Type} (d : α → String → Except ProcessingError String) :
    String → List α → List String × Option ProcessingError
  | _, [] => ([], none)
  | input, st :: rest =>
    match d st input with
    | Except.error e => ([], some e)
    | Except.ok out =>
      let r := runPipeline d out rest
      (out :: r.1, r.2)

/-- Modelled from the spec: the chained output of a run of steps in which
every step succeeds — the input threaded through each dispatcher call of
§4.4 in order. -/
def chainSteps {α : Type} (d : α → String → Except ProcessingError String) :
    String → List α → Except ProcessingError String
  | input, [] => Except.ok input
  | input, st :: rest =>
    match d st input with
    | Except.error e => Except.error e
    | Except.ok out => chainSteps d out rest

/-- A concrete 3-step dispatcher for the spec's fail-fast scenario: step 0
succeeds, step 1 fails, step 2 would succeed were it ever reached. -/
def stepD : Nat → String → Except ProcessingError String
  | 0, _ => Except.ok "the transcript"
  | 1, _ => Except.error ProcessingError.inputTooShort
  | _, _ => Except.ok "never reached"

/-! ## Helper lemmas -/

theorem transcribe_audio_self (fs : Fs) (s : AIScribe) (p : String) :
    (transcribe_audio fs s p).self = s := by
  unfold transcribe_audio
  split
  · split <;> rfl
  · rfl

theorem summarize_text_self (s : AIScribe) (t : String) :
    (summarize_text s t).self = s := rfl

theorem translate_text_self (s : AIScribe) (t l : String) :
    (translate_text s t l).self = s := by
  unfold translate_text
  split <;> rfl

theorem process_self (fs : Fs) (s : AIScribe) (i t l : String) :
    (process fs s i t l).self = s := by
  unfold process
  split
  · exact transcribe_audio_self fs s i
  · split
    · rfl
    · split
      · exact translate_text_self s i l
      · rfl

theorem stepCall_self (fs : Fs) (s : AIScribe) (c : MethodCall) :
    stepCall fs s c = s := by
  cases c with
  | processC i t l => exact process_self fs s i t l
  | transcribeC p => exact transcribe_audio_self fs s p
  | summarizeC t => exact summarize_text_self s t
  | translateC t l => exact translate_text_self s t l

/-! ## Claims -/

/-- Claim C10: calling `process` with only an input uses the Python default
parameters `task="transcribe"` and `target_language="fr"`, so for every
input x it returns exactly what `transcribe_audio x` returns. -/
theorem c10_default_task_is_transcribe (fs : Fs) (s : AIScribe) (x : String) :
    process_default fs s x = transcribe_audio fs s x := rfl

/-- Claim C9: for every task other than "translate", the `target_language`
parameter has no effect on the result of `process`: two runs with the same
input and task but different target languages return equal outputs. -/
theorem c9_target_language_no_effect (fs : Fs) (s : AIScribe)
    (x task l1 l2 : String) (h : task ≠ "translate") :
    process fs s x task l1 = process fs s x task l2 := by
  by_cases h1 : task = "transcribe"
  · simp [process, h1]
  · by_cases h2 : task = "summarize"
    · simp [process, h1, h2]
    · simp [process, h1, h2, h]

/-- Witness for C9: with the summarize task, target languages "de" and
"es" give the same output. -/
theorem c9_target_language_no_effect_witness :
    ("summarize" : String) ≠ "translate" ∧
      process stubFs stubScribe "some text" "summarize" "de" =
        process stubFs stubScribe "some text" "summarize" "es" :=
  ⟨by decide,
    c9_target_language_no_effect stubFs stubScribe "some text" "summarize"
      "de" "es" (by decide)⟩

/-- Claim C8: the capability registry (the recognizer, summarization model
and translation model held by the `AIScribe` object) is built once in
`__init__` and never mutated afterwards: every sequence of
process/transcribe/summarize/translate calls leaves the object's provider
fields exactly as they were. -/
theorem c8_registry_never_mutated (fs : Fs) (s : AIScribe)
    (cs : List MethodCall) : runCalls fs s cs = s := by
  induction cs generalizing s with
  | nil => rfl
  | cons c cs ih =>
    show runCalls fs (stepCall fs s c) cs = s
    rw [stepCall_self]
    exact ih s

/-- Counterexample to claim C1 as stated: translating "Hello, how are you?"
to the unregistered target language "de" does not fail with an
UnsupportedLanguage error — `process` returns the ordinary string
"Target language not supported" wrapped in `some`, the same shape as a
successful translation (the code's only failure-shaped value is Python
`None`, i.e. `none`). -/
theorem c1_counterexample :
    (process stubFs stubScribe "Hello, how are you?" "translate" "de").ret =
        some "Target language not supported" ∧
      (process stubFs stubScribe "Hello, how are you?" "translate" "de").ret ≠
        none := by
  refine ⟨rfl, ?_⟩
  intro h
  simp [process, translate_text] at h

/-- Claim C1 amended: for target language "fr" (the registered set),
`process` with the translate task returns the translation provider's
output and records a provider invocation; for any other target language it
returns the sentinel success string "Target language not supported" — not
a typed UnsupportedLanguage failure — and the provider is never invoked. -/
theorem c1_translate_dispatch (fs : Fs) (s : AIScribe) (text lang : String)
    (h : lang ≠ "fr") :
    process fs s text "translate" "fr" =
        ⟨some (s.translation_model text), [Call.translate text], s⟩ ∧
      process fs s text "translate" lang =
        ⟨some "Target language not supported", [], s⟩ := by
  constructor
  · rfl
  · show translate_text s text lang = _
    unfold translate_text
    rw [if_neg h]

/-- Witness for C1 (amended) at the spec's scenario inputs. -/
theorem c1_translate_dispatch_witness :
    ("de" : String) ≠ "fr" ∧
      (process stubFs stubScribe "Hello, how are you?" "translate" "fr" =
          ⟨some "Bonjour, comment ça va?",
            [Call.translate "Hello, how are you?"], stubScribe⟩ ∧
        process stubFs stubScribe "Hello, how are you?" "translate" "de" =
          ⟨some "Target language not supported", [], stubScribe⟩) :=
  ⟨by decide,
    c1_translate_dispatch stubFs stubScribe "Hello, how are you?" "de"
      (by decide)⟩

/-- Counterexample to claim C5 as stated: summarizing the empty string ""
does not fail with InputTooShort — the empty text is passed straight to
the summarization model (the call trace records the invocation) and the
model's output is returned as an ordinary success. -/
theorem c5_counterexample :
    process stubFs stubScribe "" "summarize" "fr" =
      ⟨some "stub summary", [Call.summarize ""], stubScribe⟩ := rfl

/-- Claim C5 amended: `summarize_text` performs no emptiness or
minimum-length validation: every text, the empty string included, is
passed to the summarization model and its summary returned as success;
no InputTooShort failure exists in the code. -/
theorem c5_no_input_too_short (fs : Fs) (s : AIScribe) (text lang : String) :
    process fs s text "summarize" lang =
      ⟨some (s.summary_model text), [Call.summarize text], s⟩ := rfl

/-- Counterexample to claim C6 as stated: `process` given the empty input
"" with the summarize task does not fail with InvalidInput — it invokes
the summarization provider on the empty string and returns its output as
success. -/
theorem c6_counterexample :
    (process stubFs stubScribe "" "summarize" "fr").calls =
        [Call.summarize ""] ∧
      (process stubFs stubScribe "" "summarize" "fr").ret =
        some "stub summary" := by
  exact ⟨rfl, rfl⟩

/-- Claim C6 amended: `process` performs no input validation at all —
neither emptiness nor modality is checked, and no InvalidInput failure
exists; the input is forwarded unchanged to whichever handler the task
string selects. -/
theorem c6_no_input_validation (fs : Fs) (s : AIScribe) (input lang : String) :
    process fs s input "transcribe" lang = transcribe_audio fs s input ∧
      process fs s input "summarize" lang = summarize_text s input ∧
      process fs s input "translate" lang = translate_text s input lang :=
  ⟨rfl, rfl, rfl⟩

/-- Counterexample to claim C7 as stated: the unregistered task "classify"
does not fail with UnsupportedCapability — `process` returns the ordinary
string "Invalid task." wrapped in `some`, the same shape as a success.  No
provider is invoked, which is the part of the claim that does hold. -/
theorem c7_counterexample :
    (process stubFs stubScribe "some text" "classify" "fr").ret =
        some "Invalid task." ∧
      (process stubFs stubScribe "some text" "classify" "fr").ret ≠ none ∧
      (process stubFs stubScribe "some text" "classify" "fr").calls = [] := by
  refine ⟨rfl, ?_, rfl⟩
  intro h
  simp [process] at h

/-- Claim C7 amended: for every task outside {"transcribe", "summarize",
"translate"}, `process` returns the sentinel success string "Invalid
task." — not a typed UnsupportedCapability failure — and no provider call
is made before that value is returned. -/
theorem c7_unknown_task (fs : Fs) (s : AIScribe) (input task lang : String)
    (h1 : task ≠ "transcribe") (h2 : task ≠ "summarize")
    (h3 : task ≠ "translate") :
    process fs s input task lang = ⟨some "Invalid task.", [], s⟩ := by
  unfold process
  rw [if_neg h1, if_neg h2, if_neg h3]

/-- Witness for C7 (amended) at the concrete task "classify". -/
theorem c7_unknown_task_witness :
    (("classify" : String) ≠ "transcribe" ∧ ("classify" : String) ≠ "summarize" ∧
        ("classify" : String) ≠ "translate") ∧
      process stubFs stubScribe "some text" "classify" "fr" =
        ⟨some "Invalid task.", [], stubScribe⟩ :=
  ⟨⟨by decide, by decide, by decide⟩,
    c7_unknown_task stubFs stubScribe "some text" "classify" "fr"
      (by decide) (by decide) (by decide)⟩

/-- Counterexample to claim C2 as stated: transcribing "noise.wav", whose
audio the stub recognizer cannot understand, makes `process` return `none`
(Python `None`) — exactly the default/empty value that the claim says is
never used to stand in for a failure. -/
theorem c2_counterexample :
    (process stubFs stubScribe "noise.wav" "transcribe" "fr").ret = none :=
  rfl

/-- Claim C2 amended: capability failures are signalled by Python `None`
(every transcription failure) or by sentinel success strings ("Target
language not supported" for an unsupported translation target, "Invalid
task." for an unknown task) — not by a value observable as a failure
distinct from ordinary successes. -/
theorem c2_failures_map_to_defaults (fs : Fs) (s : AIScribe)
    (p1 p2 p3 text task lang : String) :
    (fs p1 = false → process fs s p1 "transcribe" lang = ⟨none, [], s⟩) ∧
      (s.recognizer p2 = RecogResult.unknownValue →
        (process fs s p2 "transcribe" lang).ret = none) ∧
      (s.recognizer p3 = RecogResult.requestError →
        (process fs s p3 "transcribe" lang).ret = none) ∧
      (lang ≠ "fr" →
        (process fs s text "translate" lang).ret =
          some "Target language not supported") ∧
      (task ≠ "transcribe" → task ≠ "summarize" → task ≠ "translate" →
        (process fs s text task lang).ret = some "Invalid task.") := by
  refine ⟨?_, ?_, ?_, ?_, ?_⟩
  · intro h
    show transcribe_audio fs s p1 = _
    simp [transcribe_audio, h]
  · intro h
    show (transcribe_audio fs s p2).ret = none
    by_cases hf : fs p2 <;> simp [transcribe_audio, hf, h]
  · intro h
    show (transcribe_audio fs s p3).ret = none
    by_cases hf : fs p3 <;> simp [transcribe_audio, hf, h]
  · intro h
    show (translate_text s text lang).ret = _
    simp [translate_text, h]
  · intro h1 h2 h3
    unfold process
    rw [if_neg h1, if_neg h2, if_neg h3]

/-- Witness for C2 (amended): a missing file, unintelligible audio, a
recognition-service error, the unregistered target "de" and the unknown
task "classify", all at concrete stub inputs. -/
theorem c2_failures_map_to_defaults_witness :
    (stubFs "missing.wav" = false ∧
        stubScribe.recognizer "noise.wav" = RecogResult.unknownValue ∧
        stubScribe.recognizer "down.wav" = RecogResult.requestError ∧
        ("de" : String) ≠ "fr" ∧
        (("classify" : String) ≠ "transcribe" ∧
          ("classify" : String) ≠ "summarize" ∧
          ("classify" : String) ≠ "translate")) ∧
      (process stubFs stubScribe "missing.wav" "transcribe" "de" =
          ⟨none, [], stubScribe⟩ ∧
        (process stubFs stubScribe "noise.wav" "transcribe" "de").ret = none ∧
        (process stubFs stubScribe "down.wav" "transcribe" "de").ret = none ∧
        (process stubFs stubScribe "some text" "translate" "de").ret =
          some "Target language not supported" ∧
        (process stubFs stubScribe "some text" "classify" "de").ret =
          some "Invalid task.") := by
  have h := c2_failures_map_to_defaults stubFs stubScribe "missing.wav"
    "noise.wav" "down.wav" "some text" "classify" "de"
  exact ⟨⟨by decide, by decide, by decide, by decide,
      ⟨by decide, by decide, by decide⟩⟩,
    h.1 (by decide), h.2.1 (by decide), h.2.2.1 (by decide),
    h.2.2.2.1 (by decide),
    h.2.2.2.2 (by decide) (by decide) (by decide)⟩

/-- Counterexample to claim C4 as stated: on unintelligible audio
("noise.wav") `process` does not return a distinct Unrecognized error — it
returns `none` (a null), and that value is identical to what it returns
when the file cannot be opened ("missing.wav") and when the recognition
service request fails ("down.wav"): the three failures are
indistinguishable. -/
theorem c4_counterexample :
    (process stubFs stubScribe "noise.wav" "transcribe" "fr").ret = none ∧
      (process stubFs stubScribe "noise.wav" "transcribe" "fr").ret =
        (process stubFs stubScribe "missing.wav" "transcribe" "fr").ret ∧
      (process stubFs stubScribe "noise.wav" "transcribe" "fr").ret =
        (process stubFs stubScribe "down.wav" "transcribe" "fr").ret :=
  ⟨rfl, rfl, rfl⟩

/-- Claim C4 amended: when the recognizer reports the audio as
unintelligible, `process` returns `None` (not a crash, but a null rather
than a distinct Unrecognized value), and the very same `None` is returned
when the audio resource cannot be opened and when the recognition service
request fails — the three failure modes cannot be told apart from the
return value. -/
theorem c4_unintelligible_returns_none (fs : Fs) (s : AIScribe)
    (p q r : String) (hp : fs p = true)
    (hrec : s.recognizer p = RecogResult.unknownValue) (hq : fs q = false)
    (hr : fs r = true) (hreq : s.recognizer r = RecogResult.requestError) :
    (process fs s p "transcribe" "fr").ret = none ∧
      (process fs s q "transcribe" "fr").ret =
        (process fs s p "transcribe" "fr").ret ∧
      (process fs s r "transcribe" "fr").ret =
        (process fs s p "transcribe" "fr").ret := by
  have h1 : (transcribe_audio fs s p).ret = none := by
    simp [transcribe_audio, hp, hrec]
  have h2 : (transcribe_audio fs s q).ret = none := by
    simp [transcribe_audio, hq]
  have h3 : (transcribe_audio fs s r).ret = none := by
    simp [transcribe_audio, hr, hreq]
  exact ⟨h1, h2.trans h1.symm, h3.trans h1.symm⟩

/-- Witness for C4 (amended) at the concrete stub inputs. -/
theorem c4_unintelligible_returns_none_witness :
    (stubFs "noise.wav" = true ∧
        stubScribe.recognizer "noise.wav" = RecogResult.unknownValue ∧
        stubFs "missing.wav" = false ∧ stubFs "down.wav" = true ∧
        stubScribe.recognizer "down.wav" = RecogResult.requestError) ∧
      ((process stubFs stubScribe "noise.wav" "transcribe" "fr").ret = none ∧
        (process stubFs stubScribe "missing.wav" "transcribe" "fr").ret =
          (process stubFs stubScribe "noise.wav" "transcribe" "fr").ret ∧
        (process stubFs stubScribe "down.wav" "transcribe" "fr").ret =
          (process stubFs stubScribe "noise.wav" "transcribe" "fr").ret) :=
  ⟨⟨by decide, by decide, by decide, by decide, by decide⟩,
    c4_unintelligible_returns_none stubFs stubScribe "noise.wav"
      "missing.wav" "down.wav" (by decide) (by decide) (by decide)
      (by decide) (by decide)⟩

/-- Claim C3: pipeline fail-fast.  If the steps of `pre` all succeed,
threading the input through to `mid`, and the next step `st` fails with
error `e`, then running the whole pipeline `pre ++ st :: post` returns
exactly the successful results of `pre` (one per step of `pre`, with no
error among them) together with the error `e`, and the outcome does not
depend on `post` at all — the steps after the failing one are never
invoked. -/
theorem c3_pipeline_fail_fast {α : Type}
    (d : α → String → Except ProcessingError String) (input mid : String)
    (pre post : List α) (st : α) (e : ProcessingError)
    (hpre : chainSteps d input pre = Except.ok mid)
    (hfail : d st mid = Except.error e) :
    runPipeline d input (pre ++ st :: post) =
        ((runPipeline d input pre).1, some e) ∧
      (runPipeline d input pre).1.length = pre.length ∧
      (runPipeline d input pre).2 = none ∧
      runPipeline d input (pre ++ st :: post) =
        runPipeline d input (pre ++ [st]) := by
  induction pre generalizing input with
  | nil =>
    rw [chainSteps] at hpre
    injection hpre with hmid
    subst hmid
    simp [runPipeline, hfail]
  | cons p ps ih =>
    cases hdp : d p input with
    | error e' =>
      rw [chainSteps, hdp] at hpre
      exact absurd hpre (by simp)
    | ok out =>
      rw [chainSteps, hdp] at hpre
      obtain ⟨ih1, ih2, ih3, ih4⟩ := ih out hpre
      refine ⟨?_, ?_, ?_, ?_⟩
      · rw [List.cons_append, runPipeline, hdp, runPipeline, hdp]
        simp [ih1]
      · rw [runPipeline, hdp]
        simp [ih2]
      · rw [runPipeline, hdp]
        simpa using ih3
      · rw [List.cons_append, runPipeline, hdp, List.cons_append,
          runPipeline, hdp]
        simp [ih4]

/-- Witness for C3: the spec's 3-step scenario — step 1 succeeds, step 2
fails with InputTooShort, step 3 is never reached: the run returns exactly
one successful result plus the step-2 error, independently of step 3. -/
theorem c3_pipeline_fail_fast_witness :
    (chainSteps stepD "lecture.wav" [0] = Except.ok "the transcript" ∧
        stepD 1 "the transcript" =
          Except.error ProcessingError.inputTooShort) ∧
      (runPipeline stepD "lecture.wav" ([0] ++ 1 :: [2]) =
          ((runPipeline stepD "lecture.wav" [0]).1,
            some ProcessingError.inputTooShort) ∧
        (runPipeline stepD "lecture.wav" [0]).1.length = 1 ∧
        (runPipeline stepD "lecture.wav" [0]).2 = none ∧
        runPipeline stepD "lecture.wav" ([0] ++ 1 :: [2]) =
          runPipeline stepD "lecture.wav" ([0] ++ [1])) :=
  ⟨⟨rfl, rfl⟩,
    c3_pipeline_fail_fast stepD "lecture.wav" "the transcript" [0] [2] 1
      ProcessingError.inputTooShort rfl rfl⟩
